import Mathlib

/-!
# Verification of the RSLinxHook discovery orchestrator

Shallow embedding of the RSLinxHook core (event sink, topology XML
scanning, STA affinity dispatcher, cleanup, config parsing, registration
and the phased polling loops) together with proofs of the specified
properties.

Buffers read from files are modelled as `List Char` (the bytes of the
snapshot file as read into the scan buffer); C `strstr`/`strncmp`
scanning is embedded positionally over that list.
-/

namespace RSLinxHook

/-- `strncmp(s, pat, pat.length) == 0`: `pat` is a literal prefix of `s`
(terminating NUL of a shorter buffer never matches a pattern char). -/
def prefixMatch : List Char → List Char → Bool
  | _, [] => true
  | [], _ :: _ => false
  | c :: s, p :: ps => c == p && prefixMatch s ps

/-- `strstr` from absolute position `i`: first index `j ≥ i` (here `s` is
the suffix of the buffer starting at `i`) where `pat` occurs; `none` when
the pattern does not occur. -/
def findFrom (pat : List Char) : List Char → Nat → Option Nat
  | [], _ => none
  | s@(_ :: rest), i =>
    if prefixMatch s pat then some i else findFrom pat rest (i + 1)

/-- `strstr(buf + start, pat)` returning an absolute index into `buf`. -/
def strstrAt (buf pat : List Char) (start : Nat) : Option Nat :=
  findFrom pat (buf.drop start) start

/-- Point-in-time aggregate derived from a topology snapshot
(`TopologyCounts` in TopologyXML.h). -/
structure TopologyCounts where
  totalDevices : Nat
  identifiedDevices : Nat
deriving Repr, DecidableEq

def unrecognizedDevice : List Char := "Unrecognized Device".toList
def workstation : List Char := "Workstation".toList
def deviceTag : List Char := "<device ".toList
def classnameAttr : List Char := "classname=\"".toList

/-- The classname test of `CountDevicesInXML`: the classname starting at
`cn + 11` is neither `Unrecognized Device` nor `Workstation`. -/
def classnameIdentified (buf : List Char) (cn : Nat) : Bool :=
  let s := buf.drop (cn + 11)
  !prefixMatch s unrecognizedDevice && !prefixMatch s workstation

/-- Scan loop of `CountDevicesInXML` (TopologyXML.cpp:59-72): for each
occurrence of `"<device "` count a device; look for the next
`"classname=\""`; when it starts within 300 chars of the device tag and
passes the classname test, count the device as identified; resume the
scan one char past the device tag. `fuel` bounds the strictly
increasing scan position. -/
def countScan (buf : List Char) : Nat → Nat → TopologyCounts → TopologyCounts
  | 0, _, acc => acc
  | fuel + 1, p, acc =>
    match strstrAt buf deviceTag p with
    | none => acc
    | some q =>
      let idf :=
        match strstrAt buf classnameAttr q with
        | some cn =>
          if cn < q + 300 && classnameIdentified buf cn then
            acc.identifiedDevices + 1
          else acc.identifiedDevices
        | none => acc.identifiedDevices
      countScan buf fuel (q + 1) ⟨acc.totalDevices + 1, idf⟩

/-- `CountDevicesInXML` (TopologyXML.cpp:50-74) on the bytes read into the
scan buffer. The fuel `buf.length + 1` dominates the strictly increasing
scan position, so the fuel never runs out before the scan does. -/
def CountDevicesInXML (buf : List Char) : TopologyCounts :=
  countScan buf (buf.length + 1) 0 ⟨0, 0⟩

/-- The classname test of `IsTargetIdentifiedInXML` (TopologyXML.cpp:
107-114): additionally rejects an empty classname (`cn + 11` pointing at
a closing quote). -/
def classnameIdentifiedStrict (buf : List Char) (cn : Nat) : Bool :=
  let s := buf.drop (cn + 11)
  !prefixMatch s unrecognizedDevice && !prefixMatch s workstation &&
    !prefixMatch s "\"".toList

/-- Device-scan loop of `IsTargetIdentifiedInXML` (TopologyXML.cpp:
101-117): starting at the matched address position, look for `"<device "`
occurrences strictly before `searchEnd`; for each, when a
`"classname=\""` occurs within 500 chars and passes the strict classname
test, succeed; otherwise resume one char past the device tag. -/
def targetScan (buf : List Char) (searchEnd : Nat) : Nat → Nat → Bool
  | 0, _ => false
  | fuel + 1, p =>
    if p < searchEnd then
      match strstrAt buf deviceTag p with
      | none => false
      | some q =>
        if q < searchEnd then
          let hit :=
            match strstrAt buf classnameAttr q with
            | some cn => cn < q + 500 && classnameIdentifiedStrict buf cn
            | none => false
          if hit then true else targetScan buf searchEnd fuel (q + 1)
        else false
    else false

/-- Search pattern `value="<ip>"` built by `IsTargetIdentifiedInXML`
(TopologyXML.cpp:94); faithful for target strings short enough not to be
truncated by the 64/128-byte conversion buffers. -/
def valuePattern (ip : List Char) : List Char :=
  "value=\"".toList ++ ip ++ "\"".toList

/-- `IsTargetIdentifiedInXML` (TopologyXML.cpp:77-120): true when some
target address string occurs as `value="<ip>"` and a `<device ` with an
acceptable classname follows it within 2000 chars (clamped to the buffer
end). -/
def IsTargetIdentifiedInXML (buf : List Char) (targetIPs : List (List Char)) : Bool :=
  targetIPs.any fun ip =>
    match strstrAt buf (valuePattern ip) 0 with
    | none => false
    | some addrPos =>
      let searchEnd := min (addrPos + 2000) buf.length
      targetScan buf searchEnd (buf.length + 1) addrPos

end RSLinxHook


namespace RSLinxHook

/-! ## HRESULT constants -/

def S_OK : Nat := 0
def S_FALSE : Nat := 1
def E_FAIL : Nat := 0x80004005
def E_INVALIDARG : Nat := 0x80070057
def E_PENDING : Nat := 0x8000000A
def DISP_E_EXCEPTION : Nat := 0x80020009

/-- `SUCCEEDED(hr)`: the sign bit of the 32-bit HRESULT is clear. -/
def SUCCEEDED (hr : Nat) : Bool := hr < 0x80000000

/-! ## DualEventSink (EventSink.cpp)

The sink's cycle-detection state: the seen-address set, the
cycle-complete and browse-ended flags and the total `Found` counter
(EventSink.h fields `m_seenAddresses`, `m_cycleComplete`,
`m_browseEnded`, `m_addressCount`).  The semantic events delivered
through either of the two native capability sets (`Found` /
`OnBrowseAddressFound` run identical bodies, likewise
`BrowseCycled` / `OnBrowseCycled` and `BrowseEnded` / `OnBrowseEnded`). -/

structure SinkState where
  seenAddresses : List String
  cycleComplete : Bool
  browseEnded : Bool
  addressCount : Nat
deriving Repr, DecidableEq

/-- Constructor state (EventSink.cpp:17-21). -/
def initSink : SinkState :=
  { seenAddresses := [], cycleComplete := false, browseEnded := false, addressCount := 0 }

inductive SinkEvent where
  | found (addr : String)
  | browseCycled
  | browseEnded
deriving Repr, DecidableEq

/-- One event delivery (EventSink.cpp:135-176): `Found` increments the
total counter, then either marks the cycle complete (repeat address) or
inserts the address into the seen-set; `BrowseCycled` sets
`cycleComplete` unconditionally; `BrowseEnded` additionally sets
`browseEnded`. -/
def sinkStep (s : SinkState) : SinkEvent → SinkState
  | .found addr =>
    if s.seenAddresses.contains addr then
      { s with addressCount := s.addressCount + 1, cycleComplete := true }
    else
      { s with addressCount := s.addressCount + 1,
               seenAddresses := addr :: s.seenAddresses }
  | .browseCycled => { s with cycleComplete := true }
  | .browseEnded => { s with cycleComplete := true, browseEnded := true }

/-- A sequence of deliveries from a fresh sink. -/
def runSink (events : List SinkEvent) : SinkState :=
  events.foldl sinkStep initSink

/-! ## DualEventSink::QueryInterface (EventSink.cpp:63-96) -/

/-- Capability identity classes distinguished by `QueryInterface`:
the three specifically recognised IIDs, `IMarshal`, and every other
GUID (represented by an arbitrary tag). -/
inductive IIDKind where
  | iUnknown
  | topologyOnlineNotify
  | topologyBusEvents
  | iMarshal
  | other (guid : Nat)
deriving Repr, DecidableEq

/-- Which vtable pointer is stored through `ppv`. -/
inductive VTableEntry where
  | notifyVtable
  | busVtable
  | ftmDelegated
deriving Repr, DecidableEq

/-- `DualEventSink::QueryInterface`: null `ppv` is `E_INVALIDARG`;
`IUnknown` and the notify set return the notify vtable; the bus set
returns the bus vtable; `IMarshal` with a live free-threaded marshaler
delegates to it (outcome `ftmResult` belongs to the external FTM);
every other identity is accepted with the notify vtable. -/
def QueryInterface (hasFTM : Bool) (ftmResult : Nat × Option VTableEntry)
    (ppvValid : Bool) (riid : IIDKind) : Nat × Option VTableEntry :=
  if !ppvValid then (E_INVALIDARG, none)
  else match riid with
  | .iUnknown => (S_OK, some .notifyVtable)
  | .topologyOnlineNotify => (S_OK, some .notifyVtable)
  | .topologyBusEvents => (S_OK, some .busVtable)
  | .iMarshal =>
    if hasFTM then ftmResult else (S_OK, some .notifyVtable)
  | .other _ => (S_OK, some .notifyVtable)

end RSLinxHook

namespace RSLinxHook

/-! ## ExecuteOnMainSTA (STAHook.cpp:107-211)

The affinity dispatcher.  The environment captures what the platform
calls return: the identified main (oldest) thread, the calling thread,
whether the message hook installs, whether the wake message posts,
whether the hooked thread stores a result before the 30-second wait
expires, and the window-subclass fallback outcomes. -/

structure STAEnv where
  mainThreadId : Nat
  callingThreadId : Nat
  hookInstalled : Bool
  postOk : Bool
  hookOutcome : Option Nat
  windowFound : Bool
  subclassInstalled : Bool
  subclassHr : Nat
deriving Repr, DecidableEq

inductive STAAction where
  | installHook
  | postMessage
  | waitForResult
  | removeHook
  | enumWindows
  | subclassWindow
  | sendSubclassMsg
  | restoreWndProc
deriving Repr, DecidableEq

/-- Window-subclass fallback (STAHook.cpp:173-210), reached when the
message-hook path did not produce a result. -/
def staFallback (env : STAEnv) (acts : List STAAction) : List STAAction × Nat :=
  let acts := acts ++ [STAAction.enumWindows]
  if !env.windowFound then (acts, E_FAIL)
  else
    let acts := acts ++ [STAAction.subclassWindow]
    if env.subclassInstalled then
      (acts ++ [STAAction.sendSubclassMsg, STAAction.restoreWndProc], env.subclassHr)
    else (acts, E_FAIL)

/-- `ExecuteOnMainSTA`: fail fast when no main thread was identified or
the identified thread is the calling thread (STAHook.cpp:117-121);
otherwise try the `WH_GETMESSAGE` hook (install, post the magic wake
message, bounded wait on the shared result slot, uninstall), returning
the stored result when one arrived; otherwise fall back to the window
subclass.  The returned action list is the trace of platform
interactions actually performed. -/
def ExecuteOnMainSTA (env : STAEnv) : List STAAction × Nat :=
  if env.mainThreadId == 0 || env.mainThreadId == env.callingThreadId then
    ([], E_FAIL)
  else
    let acts := [STAAction.installHook]
    if env.hookInstalled then
      let (acts, result) :=
        if env.postOk then
          (acts ++ [STAAction.postMessage, STAAction.waitForResult, STAAction.removeHook],
           match env.hookOutcome with
           | some hr => hr
           | none => E_PENDING)
        else (acts ++ [STAAction.postMessage, STAAction.removeHook], E_PENDING)
      if result != E_PENDING then (acts, result)
      else staFallback env acts
    else staFallback env acts

/-! ## DoCleanupOnMainSTA (BrowseOperations.cpp:546-624) -/

/-- Outcome of a guarded native call: a normal return with an HRESULT,
or a crash caught by the structured-exception guard. -/
inductive CallBehavior where
  | returns (hr : Nat)
  | faults
deriving Repr, DecidableEq

/-- One entry of the `g_enumerators` registry (`EnumeratorInfo` in
RSLinxHook.cpp:1396): the enumerator interface pointer (live or null),
its sink pointer, and what its vtable-slot-8 `Stop` call does. -/
structure EnumeratorInfo where
  enumId : Nat
  hasEnumInterface : Bool
  hasSink : Bool
  stopBehavior : CallBehavior
deriving Repr, DecidableEq

/-- One entry of the `g_connectionPoints` registry
(`ConnectionPointInfo` in RSLinxHook.cpp:1395). -/
structure ConnectionPointInfo where
  cpId : Nat
  hasCP : Bool
  unadviseBehavior : CallBehavior
deriving Repr, DecidableEq

inductive CleanupAction where
  | stopAttempt (id : Nat)
  | unadviseAttempt (id : Nat)
  | releaseCP (id : Nat)
  | releaseEnum (id : Nat)
  | releaseSink (id : Nat)
  | releaseBus (id : Nat)
deriving Repr, DecidableEq

/-- Step 1 (BrowseOperations.cpp:551-569): attempt `Stop` on every
enumerator with a live interface; a SEH fault is logged and ignored
(the success counter is not incremented); null interfaces are skipped. -/
def stopEnumerators : List EnumeratorInfo → List CleanupAction × Nat
  | [] => ([], 0)
  | ei :: rest =>
    let tail := stopEnumerators rest
    if ei.hasEnumInterface then
      match ei.stopBehavior with
      | .returns _ => (CleanupAction.stopAttempt ei.enumId :: tail.1, tail.2 + 1)
      | .faults => (CleanupAction.stopAttempt ei.enumId :: tail.1, tail.2)
    else tail

/-- Step 2 (BrowseOperations.cpp:572-587): attempt `Unadvise` on every
live connection point under the same fault policy. -/
def unadviseCPs : List ConnectionPointInfo → List CleanupAction × Nat
  | [] => ([], 0)
  | cpi :: rest =>
    let tail := unadviseCPs rest
    if cpi.hasCP then
      match cpi.unadviseBehavior with
      | .returns _ => (CleanupAction.unadviseAttempt cpi.cpId :: tail.1, tail.2 + 1)
      | .faults => (CleanupAction.unadviseAttempt cpi.cpId :: tail.1, tail.2)
    else tail

/-- Step 3 (BrowseOperations.cpp:590-595): release each live connection
point once. -/
def releaseCPs : List ConnectionPointInfo → List CleanupAction
  | [] => []
  | cpi :: rest =>
    if cpi.hasCP then CleanupAction.releaseCP cpi.cpId :: releaseCPs rest
    else releaseCPs rest

/-- Step 4 (BrowseOperations.cpp:598-610): release each live enumerator
interface and each live sink once. -/
def releaseEnumerators : List EnumeratorInfo → List CleanupAction
  | [] => []
  | ei :: rest =>
    (if ei.hasEnumInterface then [CleanupAction.releaseEnum ei.enumId] else []) ++
    (if ei.hasSink then [CleanupAction.releaseSink ei.enumId] else []) ++
    releaseEnumerators rest

/-- The mutable registries touched by cleanup. -/
structure CleanupState where
  enumerators : List EnumeratorInfo
  connectionPoints : List ConnectionPointInfo
  capturedBuses : List Nat
deriving Repr, DecidableEq

structure CleanupOutcome where
  actions : List CleanupAction
  stoppedCount : Nat
  unadvisedCount : Nat
  final : CleanupState
deriving Repr, DecidableEq

/-- `DoCleanupOnMainSTA`: stop every live enumerator, unadvise every
live connection point (both fault-guarded, failures ignored), release
connection points, enumerator interfaces and sinks, release captured
buses, and clear all three registries. -/
def DoCleanupOnMainSTA (st : CleanupState) : CleanupOutcome :=
  let stops := stopEnumerators st.enumerators
  let unadvs := unadviseCPs st.connectionPoints
  { actions := stops.1 ++ unadvs.1 ++ releaseCPs st.connectionPoints ++
      releaseEnumerators st.enumerators ++
      st.capturedBuses.map CleanupAction.releaseBus,
    stoppedCount := stops.2,
    unadvisedCount := unadvs.2,
    final := { enumerators := [], connectionPoints := [], capturedBuses := [] } }

end RSLinxHook

namespace RSLinxHook

/-! ## Config parsing (Config.cpp:18-49) -/

structure DriverEntry where
  name : List Char
  ipAddresses : List (List Char)
  newDriver : Bool
deriving Repr, DecidableEq

inductive HookMode where
  | inject
  | monitor
deriving Repr, DecidableEq

structure HookConfig where
  drivers : List DriverEntry
  mode : HookMode
  logDir : List Char
  debugXml : Bool
  probeDispids : Bool
deriving Repr, DecidableEq

/-- Field defaults of `HookConfig` (Config.h). -/
def defaultHookConfig : HookConfig :=
  { drivers := [], mode := .inject, logDir := "C:\\temp".toList,
    debugXml := false, probeDispids := false }

/-- Mutate the last driver entry (`config.drivers.back()`). -/
def updateLast (f : DriverEntry → DriverEntry) : List DriverEntry → List DriverEntry
  | [] => []
  | [d] => [f d]
  | d :: rest => d :: updateLast f rest

/-- Dispatch on one complete, CR-trimmed, non-`C|END` line
(Config.cpp:36-46): lines not starting with `C|` and `C|` lines with an
unrecognized payload leave the configuration unchanged. -/
def applyConfigLine (cfg : HookConfig) (line : List Char) : HookConfig :=
  if prefixMatch line "C|".toList then
    let wval := line.drop 2
    if wval = "MODE=inject".toList then { cfg with mode := .inject }
    else if wval = "MODE=monitor".toList then { cfg with mode := .monitor }
    else if prefixMatch wval "LOGDIR=".toList then { cfg with logDir := wval.drop 7 }
    else if wval = "DEBUGXML=1".toList then { cfg with debugXml := true }
    else if wval = "PROBE=1".toList then { cfg with probeDispids := true }
    else if prefixMatch wval "DRIVER=".toList then
      { cfg with drivers := cfg.drivers ++ [⟨wval.drop 7, [], false⟩] }
    else if wval = "NEWDRIVER=1".toList ∧ cfg.drivers ≠ [] then
      { cfg with drivers := updateLast (fun d => { d with newDriver := true }) cfg.drivers }
    else if prefixMatch wval "IP=".toList ∧ cfg.drivers ≠ [] then
      { cfg with drivers :=
          updateLast (fun d => { d with ipAddresses := d.ipAddresses ++ [wval.drop 3] }) cfg.drivers }
    else cfg
  else cfg

/-- Strip one trailing `\r` (Config.cpp:34). -/
def trimCR (line : List Char) : List Char :=
  if line.getLast? = some '\r' then line.dropLast else line

/-- Prepend one non-newline char to the front of a split buffer: it
extends the first complete line when one exists, else the remainder. -/
def consLine (c : Char) : List (List Char) × List Char → List (List Char) × List Char
  | (l :: ls, rem) => ((c :: l) :: ls, rem)
  | ([], rem) => ([], c :: rem)

/-- Split a byte buffer into its complete newline-terminated lines and
the trailing incomplete remainder (the repeated newline extraction of
Config.cpp:31-33). -/
def linesOf : List Char → List (List Char) × List Char
  | [] => ([], [])
  | c :: rest =>
    if c = '\n' then ([] :: (linesOf rest).1, (linesOf rest).2)
    else consLine c (linesOf rest)

/-- Process extracted lines in order (Config.cpp:34-46): a `C|END` line
returns immediately with success iff at least one driver was
configured; every other line is dispatched through `applyConfigLine`. -/
def runLines (cfg : HookConfig) : List (List Char) → Option Bool × HookConfig
  | [] => (none, cfg)
  | l :: rest =>
    let line := trimCR l
    if line = "C|END".toList then (some (!cfg.drivers.isEmpty), cfg)
    else runLines (applyConfigLine cfg line) rest

/-- The NUL terminator appended at `buf[bytesRead]`; `accumulated +=
buf` appends only up to the first NUL byte of the chunk. -/
def nulChar : Char := Char.ofNat 0

def takeToNul (chunk : List Char) : List Char :=
  chunk.takeWhile (fun c => c ≠ nulChar)

/-- The read loop of `ReadConfigFromPipe` (Config.cpp:23-48): each
`ReadFile` chunk is appended to the accumulator, complete lines are
processed; a failed or empty read (modelled as list end or an empty
chunk) aborts with failure. -/
def readConfigGo (cfg : HookConfig) (acc : List Char) : List (List Char) → Bool × HookConfig
  | [] => (false, cfg)
  | chunk :: rest =>
    if chunk = [] then (false, cfg)
    else
      match runLines cfg (linesOf (acc ++ takeToNul chunk)).1 with
      | (some ok, cfg1) => (ok, cfg1)
      | (none, cfg1) =>
        readConfigGo cfg1 (linesOf (acc ++ takeToNul chunk)).2 rest

/-- `ReadConfigFromPipe` over the sequence of chunks the pipe delivers. -/
def ReadConfigFromPipe (chunks : List (List Char)) : Bool × HookConfig :=
  readConfigGo defaultHookConfig [] chunks

/-! ## Phase 1 target registration (RSLinxHook.cpp:3380-3427) -/

structure RegCounts where
  addedCount : Nat
  existingCount : Nat
  failedCount : Nat
deriving Repr, DecidableEq

/-- Classification of one `ConnectNewDevice` HRESULT
(RSLinxHook.cpp:3403-3423): success counts as added; the host's
`DISP_E_EXCEPTION` ("already exists") counts as existing, not failed;
anything else counts as failed.  The loop continues regardless. -/
def classifyConnectResult (c : RegCounts) (hr : Nat) : RegCounts :=
  if SUCCEEDED hr then { c with addedCount := c.addedCount + 1 }
  else if hr = DISP_E_EXCEPTION then { c with existingCount := c.existingCount + 1 }
  else { c with failedCount := c.failedCount + 1 }

/-- Modelled from the spec: the host's internal device registry behind
the `ConnectNewDevice` dispatch call (an external collaborator, not in
this repository).  Adding an address already in the registry is
answered with the "already exists" `DISP_E_EXCEPTION` and leaves the
registry unchanged; otherwise the address is appended. -/
def hostConnectNewDevice (registry : List String) (addr : String) :
    Nat × List String :=
  if addr ∈ registry then (DISP_E_EXCEPTION, registry)
  else (S_OK, registry ++ [addr])

/-- The per-driver registration loop: invoke the host once per
configured address, classify each result, and continue with the
remaining addresses.  The host is a parameter so that arbitrary
failure responses can be exercised. -/
def registerIPs (host : List String → String → Nat × List String) :
    List String → List String → RegCounts → List String × RegCounts
  | registry, [], counts => (registry, counts)
  | registry, ip :: rest, counts =>
    let r := host registry ip
    registerIPs host r.2 rest (classifyConnectResult counts r.1)

/-! ## Phase 3 polling loop (RSLinxHook.cpp:3488-3550) -/

/-- Environment of the phase-3 polling loop, indexed by elapsed
milliseconds: the stop flag, `EnumeratorsCycledSince(enumBaseline)`,
`SaveTopologyXML` success, the snapshot bytes, and the configured
target addresses (`config.allIPs()`). -/
structure Phase3Env where
  shouldStop : Nat → Bool
  allCycled : Nat → Bool
  saveOk : Nat → Bool
  snapshot : Nat → List Char
  allIPs : List (List Char)

inductive Phase3Exit where
  | stopped
  | timeout
  | cycled
  | target
deriving Repr, DecidableEq

structure Phase3Result where
  elapsed : Nat
  why : Phase3Exit
deriving Repr, DecidableEq

/-- One 100 ms tick of the phase-3 loop: exit on the stop flag or the
30 s budget; after the 3 s minimum exit when all phase enumerators have
cycled; on 2 s poll ticks with a saved snapshot, exit when the target
check succeeds (also only after the 3 s minimum and with a non-empty
target list); otherwise sleep 100 ms and repeat. -/
def phase3Loop (env : Phase3Env) : Nat → Nat → Phase3Result
  | 0, elapsed => ⟨elapsed, .timeout⟩
  | fuel + 1, elapsed =>
    if env.shouldStop elapsed then ⟨elapsed, .stopped⟩
    else if 30000 ≤ elapsed then ⟨elapsed, .timeout⟩
    else if 3000 ≤ elapsed ∧ env.allCycled elapsed = true then ⟨elapsed, .cycled⟩
    else if 0 < elapsed ∧ elapsed % 2000 < 100 ∧ env.saveOk elapsed = true ∧
            3000 ≤ elapsed ∧ env.allIPs ≠ [] ∧
            IsTargetIdentifiedInXML (env.snapshot elapsed) env.allIPs = true then
      ⟨elapsed, .target⟩
    else phase3Loop env fuel (elapsed + 100)

/-- The loop from elapsed 0; 301 ticks of 100 ms dominate the 30 s
budget, so the fuel never runs out before the budget check fires. -/
def Phase3Run (env : Phase3Env) : Phase3Result :=
  phase3Loop env 301 0

/-! ## Phase 4 gating (RSLinxHook.cpp:3557-3694) and the monitor loop
(BrowseOperations.cpp:989-997) -/

inductive OneShotAction where
  | busBrowse
  | busPolling
  | backplaneBrowse
  | backplanePolling
  | phase4Skipped
  | cleanup
deriving Repr, DecidableEq

/-- The one-shot phase-4 block: entered only when the fresh pre-phase
snapshot shows at least one identified device; otherwise the skip is
recorded and control falls through to cleanup (phase 6 follows the
block unconditionally). -/
def oneShotPhase4 (pre : TopologyCounts) (busBrowseHr backplaneHr : Nat) :
    List OneShotAction :=
  if 0 < pre.identifiedDevices then
    [OneShotAction.busBrowse] ++
    (if SUCCEEDED busBrowseHr then [OneShotAction.busPolling] else []) ++
    [OneShotAction.backplaneBrowse] ++
    (if SUCCEEDED backplaneHr then [OneShotAction.backplanePolling] else []) ++
    [OneShotAction.cleanup]
  else [OneShotAction.phase4Skipped, OneShotAction.cleanup]

/-- Monitor-mode bus-browse gating over the successive snapshot counts:
the browse is triggered at a snapshot iff it has not been triggered
before (`busBrowseDone`) and the snapshot shows an identified device.
Returns the per-snapshot trigger decisions. -/
def monitorBusTriggers (done : Bool) : List TopologyCounts → List Bool
  | [] => []
  | c :: rest =>
    if done = false ∧ 0 < c.identifiedDevices then
      true :: monitorBusTriggers true rest
    else false :: monitorBusTriggers done rest

end RSLinxHook

namespace RSLinxHook

/-! ## Concrete snapshot fixtures -/

/-- Scenario A snapshot: a `LogixController` device nested under the
`10.0.0.5` string address. -/
def snapshotScenarioA : List Char :=
  ("<topology><bus name=\"AB_ETH-1\"><address type=\"String\" value=\"10.0.0.5\">" ++
   "<device name=\"PLC\" classname=\"LogixController\" state=\"ok\"/>" ++
   "</address></bus></topology>").toList

/-- Scenario B snapshot: the same device classed `Unrecognized Device`. -/
def snapshotScenarioB : List Char :=
  ("<topology><bus name=\"AB_ETH-1\"><address type=\"String\" value=\"10.0.0.5\">" ++
   "<device name=\"PLC\" classname=\"Unrecognized Device\" state=\"ok\"/>" ++
   "</address></bus></topology>").toList

/-- A snapshot whose only device is classed `Workstation`. -/
def snapshotWorkstation : List Char :=
  ("<topology><address type=\"String\" value=\"10.0.0.9\">" ++
   "<device name=\"WS\" classname=\"Workstation\"/>" ++
   "</address></topology>").toList

/-- A snapshot whose only device has its `classname` attribute more than
300 characters past the `<device ` tag. -/
def snapshotFarClassname : List Char :=
  "<device name=\"X\">".toList ++ List.replicate 300 'x' ++
    "classname=\"LogixController\"".toList

/-! ## C1 -/

/-- C1: every `found(addr)` increments the total address counter, and
`cycleComplete` transitions to true at a `found` exactly when the
address is already in the seen-set, while explicit `cycled`/`ended`
notifications set it unconditionally; on a fresh sink the sequence
`found("A")`, `found("B")`, `found("A")` leaves `cycleComplete` false
after the first two events, true after the third, with a total
found-count of 3. -/
theorem C1_cycle_detection :
    (∀ (s : SinkState) (addr : String),
        (sinkStep s (SinkEvent.found addr)).addressCount = s.addressCount + 1) ∧
    (∀ (s : SinkState) (addr : String),
        (sinkStep s (SinkEvent.found addr)).cycleComplete
          = (s.cycleComplete || s.seenAddresses.contains addr)) ∧
    (∀ s : SinkState, (sinkStep s SinkEvent.browseCycled).cycleComplete = true) ∧
    (∀ s : SinkState, (sinkStep s SinkEvent.browseEnded).cycleComplete = true) ∧
    (runSink [SinkEvent.found "A"]).cycleComplete = false ∧
    (runSink [SinkEvent.found "A", SinkEvent.found "B"]).cycleComplete = false ∧
    (runSink [SinkEvent.found "A", SinkEvent.found "B", SinkEvent.found "A"]).cycleComplete
      = true ∧
    (runSink [SinkEvent.found "A", SinkEvent.found "B", SinkEvent.found "A"]).addressCount
      = 3 := by
  refine ⟨?_, ?_, ?_, ?_, ?_, ?_, ?_, ?_⟩
  · intro s addr
    by_cases h : addr ∈ s.seenAddresses <;>
      simp [sinkStep, h]
  · intro s addr
    by_cases h : addr ∈ s.seenAddresses <;>
      simp [sinkStep, h]
  · intro s; rfl
  · intro s; rfl
  · decide
  · decide
  · decide
  · decide

/-! ## C3 -/

/-- C3: the two native capability sets and `IUnknown` are accepted with
their own entry points, and every unrecognized capability identity is
also accepted successfully with the primary (notify) entry point: the
query never refuses an unrecognized identity. -/
theorem C3_accept_all_query_interface :
    ∀ (hasFTM : Bool) (ftmResult : Nat × Option VTableEntry) (guid : Nat),
      QueryInterface hasFTM ftmResult true IIDKind.iUnknown
        = (S_OK, some VTableEntry.notifyVtable) ∧
      QueryInterface hasFTM ftmResult true IIDKind.topologyOnlineNotify
        = (S_OK, some VTableEntry.notifyVtable) ∧
      QueryInterface hasFTM ftmResult true IIDKind.topologyBusEvents
        = (S_OK, some VTableEntry.busVtable) ∧
      QueryInterface hasFTM ftmResult true (IIDKind.other guid)
        = (S_OK, some VTableEntry.notifyVtable) ∧
      SUCCEEDED S_OK = true := by
  intro hasFTM ftmResult guid
  exact ⟨rfl, rfl, rfl, rfl, rfl⟩

/-! ## C5 -/

set_option maxRecDepth 1000000 in
/-- C5: on the scenario-A snapshot (a `LogixController` device nested
under the `10.0.0.5` string address) `IsTargetIdentifiedInXML` returns
true for the target list `["10.0.0.5"]`; on the scenario-B snapshot
(same device classed `Unrecognized Device`) it returns false. -/
theorem C5_target_identified_scenarios :
    IsTargetIdentifiedInXML snapshotScenarioA ["10.0.0.5".toList] = true ∧
    IsTargetIdentifiedInXML snapshotScenarioB ["10.0.0.5".toList] = false := by
  exact ⟨by decide, by decide⟩

/-! ## C7 -/

/-- C7: `ExecuteOnMainSTA` returns the fatal-for-this-call `E_FAIL`
immediately, with no hook installation, wait, or fallback interaction,
whenever the main thread could not be identified or the identified main
thread is the calling thread. -/
theorem C7_self_affinity_precondition (env : STAEnv)
    (h : env.mainThreadId = 0 ∨ env.mainThreadId = env.callingThreadId) :
    ExecuteOnMainSTA env = ([], E_FAIL) := by
  rcases h with h | h <;> simp [ExecuteOnMainSTA, h]

/-- Witness for C7 at a concrete environment that has only the calling
thread (the target cannot be found). -/
theorem C7_self_affinity_precondition_witness :
    ExecuteOnMainSTA
      { mainThreadId := 0, callingThreadId := 7, hookInstalled := true,
        postOk := true, hookOutcome := some 0, windowFound := true,
        subclassInstalled := true, subclassHr := 0 } = ([], E_FAIL) :=
  C7_self_affinity_precondition
    { mainThreadId := 0, callingThreadId := 7, hookInstalled := true,
      postOk := true, hookOutcome := some 0, windowFound := true,
      subclassInstalled := true, subclassHr := 0 } (Or.inl rfl)

/-! ## C10 -/

lemma countScan_identified_le (buf : List Char) :
    ∀ (fuel p : Nat) (acc : TopologyCounts),
      acc.identifiedDevices ≤ acc.totalDevices →
      (countScan buf fuel p acc).identifiedDevices
        ≤ (countScan buf fuel p acc).totalDevices := by
  intro fuel
  induction fuel with
  | zero => intro p acc h; simpa [countScan] using h
  | succ n ih =>
    intro p acc h
    rw [countScan]
    cases hq : strstrAt buf deviceTag p with
    | none => simpa using h
    | some q =>
      apply ih
      cases hc : strstrAt buf classnameAttr q with
      | none => exact Nat.le_succ_of_le h
      | some cn =>
        dsimp only
        split
        · exact Nat.succ_le_succ h
        · exact Nat.le_succ_of_le h

set_option maxRecDepth 1000000 in
/-- C10: `CountDevicesInXML` always returns
`identifiedDevices ≤ totalDevices`; a device is identified only via a
classname attribute within 300 characters of its `<device ` tag that is
neither `Unrecognized Device` nor `Workstation`: a `Workstation` device
is counted in `totalDevices` but not in `identifiedDevices`, a nearby
identified device counts in both, and a device whose classname sits
more than 300 characters past its tag is not counted as identified. -/
theorem C10_count_devices :
    (∀ buf : List Char,
        (CountDevicesInXML buf).identifiedDevices
          ≤ (CountDevicesInXML buf).totalDevices) ∧
    CountDevicesInXML snapshotWorkstation
      = { totalDevices := 1, identifiedDevices := 0 } ∧
    CountDevicesInXML snapshotScenarioA
      = { totalDevices := 1, identifiedDevices := 1 } ∧
    CountDevicesInXML snapshotScenarioB
      = { totalDevices := 1, identifiedDevices := 0 } ∧
    CountDevicesInXML snapshotFarClassname
      = { totalDevices := 1, identifiedDevices := 0 } := by
  refine ⟨?_, by decide, by decide, by decide, by decide⟩
  intro buf
  exact countScan_identified_le buf _ 0 ⟨0, 0⟩ (Nat.le_refl 0)

end RSLinxHook

namespace RSLinxHook

/-! ## C4 helpers -/

lemma stopEnumerators_actions (l : List EnumeratorInfo) :
    (stopEnumerators l).1 =
      (l.filter fun ei => ei.hasEnumInterface).map
        (fun ei => CleanupAction.stopAttempt ei.enumId) := by
  induction l with
  | nil => rfl
  | cons ei rest ih =>
    cases hE : ei.hasEnumInterface <;> cases hB : ei.stopBehavior <;>
      simp [stopEnumerators, hE, hB, List.filter_cons, ih]

lemma unadviseCPs_actions (l : List ConnectionPointInfo) :
    (unadviseCPs l).1 =
      (l.filter fun c => c.hasCP).map
        (fun c => CleanupAction.unadviseAttempt c.cpId) := by
  induction l with
  | nil => rfl
  | cons cpi rest ih =>
    cases hC : cpi.hasCP <;> cases hB : cpi.unadviseBehavior <;>
      simp [unadviseCPs, hC, hB, List.filter_cons, ih]

lemma releaseCPs_actions (l : List ConnectionPointInfo) :
    releaseCPs l =
      (l.filter fun c => c.hasCP).map (fun c => CleanupAction.releaseCP c.cpId) := by
  induction l with
  | nil => rfl
  | cons cpi rest ih =>
    cases hC : cpi.hasCP <;> simp [releaseCPs, hC, List.filter_cons, ih]

lemma releaseEnumerators_count_zero (id : Nat) (l : List EnumeratorInfo)
    (h : id ∉ l.map EnumeratorInfo.enumId) :
    (releaseEnumerators l).count (CleanupAction.releaseEnum id) = 0 := by
  induction l with
  | nil => rfl
  | cons ei rest ih =>
    simp only [List.map_cons, List.mem_cons, not_or] at h
    cases hE : ei.hasEnumInterface <;> cases hS : ei.hasSink <;>
      simp [releaseEnumerators, hE, hS, List.count_append, List.count_cons,
        ih h.2, Ne.symm h.1]

lemma releaseEnumerators_count_le_one (id : Nat) (l : List EnumeratorInfo)
    (h : (l.map EnumeratorInfo.enumId).Nodup) :
    (releaseEnumerators l).count (CleanupAction.releaseEnum id) ≤ 1 := by
  induction l with
  | nil => simp [releaseEnumerators]
  | cons ei rest ih =>
    simp only [List.map_cons, List.nodup_cons] at h
    by_cases hid : ei.enumId = id
    · subst hid
      have h0 : (releaseEnumerators rest).count (CleanupAction.releaseEnum ei.enumId) = 0 :=
        releaseEnumerators_count_zero _ _ h.1
      cases hE : ei.hasEnumInterface <;> cases hS : ei.hasSink <;>
        simp [releaseEnumerators, hE, hS, List.count_append, List.count_cons, h0]
    · cases hE : ei.hasEnumInterface <;> cases hS : ei.hasSink <;>
        simp [releaseEnumerators, hE, hS, List.count_append, List.count_cons,
          ih h.2, hid]

lemma releaseCPs_count_zero (id : Nat) (l : List ConnectionPointInfo)
    (h : id ∉ l.map ConnectionPointInfo.cpId) :
    (releaseCPs l).count (CleanupAction.releaseCP id) = 0 := by
  induction l with
  | nil => rfl
  | cons cpi rest ih =>
    simp only [List.map_cons, List.mem_cons, not_or] at h
    cases hC : cpi.hasCP <;>
      simp [releaseCPs, hC, List.count_cons, ih h.2, Ne.symm h.1]

lemma releaseCPs_count_le_one (id : Nat) (l : List ConnectionPointInfo)
    (h : (l.map ConnectionPointInfo.cpId).Nodup) :
    (releaseCPs l).count (CleanupAction.releaseCP id) ≤ 1 := by
  induction l with
  | nil => simp [releaseCPs]
  | cons cpi rest ih =>
    simp only [List.map_cons, List.nodup_cons] at h
    by_cases hid : cpi.cpId = id
    · subst hid
      have h0 : (releaseCPs rest).count (CleanupAction.releaseCP cpi.cpId) = 0 :=
        releaseCPs_count_zero _ _ h.1
      cases hC : cpi.hasCP <;> simp [releaseCPs, hC, List.count_cons, h0]
    · cases hC : cpi.hasCP <;>
        simp [releaseCPs, hC, List.count_cons, ih h.2, hid]

lemma releaseEnumerators_count_other (id : Nat) (l : List EnumeratorInfo) :
    (releaseEnumerators l).count (CleanupAction.releaseCP id) = 0 := by
  induction l with
  | nil => rfl
  | cons ei rest ih =>
    cases hE : ei.hasEnumInterface <;> cases hS : ei.hasSink <;>
      simp [releaseEnumerators, hE, hS, List.count_append, List.count_cons, ih]

/-! ## C4 -/

/-- C4: cleanup attempts a stop on every live enumerator handle and an
unadvise on every live connection point, whatever each call returns or
even if it faults; the full action trace is the per-phase sweep of both
registries; afterwards both registries are empty and, for distinct
handle identities, no enumerator interface or connection point is
released more than once. -/
theorem C4_cleanup_best_effort (st : CleanupState)
    (hEnum : (st.enumerators.map EnumeratorInfo.enumId).Nodup)
    (hCP : (st.connectionPoints.map ConnectionPointInfo.cpId).Nodup) :
    (∀ ei ∈ st.enumerators, ei.hasEnumInterface = true →
        CleanupAction.stopAttempt ei.enumId ∈ (DoCleanupOnMainSTA st).actions) ∧
    (∀ cpi ∈ st.connectionPoints, cpi.hasCP = true →
        CleanupAction.unadviseAttempt cpi.cpId ∈ (DoCleanupOnMainSTA st).actions) ∧
    (DoCleanupOnMainSTA st).final.enumerators = [] ∧
    (DoCleanupOnMainSTA st).final.connectionPoints = [] ∧
    (∀ id : Nat,
        (DoCleanupOnMainSTA st).actions.count (CleanupAction.releaseEnum id) ≤ 1) ∧
    (∀ id : Nat,
        (DoCleanupOnMainSTA st).actions.count (CleanupAction.releaseCP id) ≤ 1) := by
  refine ⟨?_, ?_, rfl, rfl, ?_, ?_⟩
  · intro ei hmem hlive
    simp only [DoCleanupOnMainSTA, List.mem_append, stopEnumerators_actions]
    refine Or.inl (Or.inl (Or.inl (Or.inl ?_)))
    exact List.mem_map_of_mem _ (List.mem_filter.2 ⟨hmem, hlive⟩)
  · intro cpi hmem hlive
    simp only [DoCleanupOnMainSTA, List.mem_append, unadviseCPs_actions]
    refine Or.inl (Or.inl (Or.inl (Or.inr ?_)))
    exact List.mem_map_of_mem _ (List.mem_filter.2 ⟨hmem, hlive⟩)
  · intro id
    simp only [DoCleanupOnMainSTA, List.count_append, stopEnumerators_actions,
      unadviseCPs_actions, releaseCPs_actions]
    have h1 : ((st.enumerators.filter fun ei => ei.hasEnumInterface).map
        (fun ei => CleanupAction.stopAttempt ei.enumId)).count
          (CleanupAction.releaseEnum id) = 0 := by
      simp [List.count_eq_zero, List.mem_map]
    have h2 : ((st.connectionPoints.filter fun c => c.hasCP).map
        (fun c => CleanupAction.unadviseAttempt c.cpId)).count
          (CleanupAction.releaseEnum id) = 0 := by
      simp [List.count_eq_zero, List.mem_map]
    have h3 : ((st.connectionPoints.filter fun c => c.hasCP).map
        (fun c => CleanupAction.releaseCP c.cpId)).count
          (CleanupAction.releaseEnum id) = 0 := by
      simp [List.count_eq_zero, List.mem_map]
    have h4 : (st.capturedBuses.map CleanupAction.releaseBus).count
        (CleanupAction.releaseEnum id) = 0 := by
      simp [List.count_eq_zero, List.mem_map]
    rw [h1, h2, h3, h4]
    simpa using releaseEnumerators_count_le_one id st.enumerators hEnum
  · intro id
    simp only [DoCleanupOnMainSTA, List.count_append, stopEnumerators_actions,
      unadviseCPs_actions]
    have h1 : ((st.enumerators.filter fun ei => ei.hasEnumInterface).map
        (fun ei => CleanupAction.stopAttempt ei.enumId)).count
          (CleanupAction.releaseCP id) = 0 := by
      simp [List.count_eq_zero, List.mem_map]
    have h2 : ((st.connectionPoints.filter fun c => c.hasCP).map
        (fun c => CleanupAction.unadviseAttempt c.cpId)).count
          (CleanupAction.releaseCP id) = 0 := by
      simp [List.count_eq_zero, List.mem_map]
    have h4 : (st.capturedBuses.map CleanupAction.releaseBus).count
        (CleanupAction.releaseCP id) = 0 := by
      simp [List.count_eq_zero, List.mem_map]
    have h5 : (releaseEnumerators st.enumerators).count
        (CleanupAction.releaseCP id) = 0 :=
      releaseEnumerators_count_other id st.enumerators
    rw [h1, h2, h4, h5]
    simpa using releaseCPs_count_le_one id st.connectionPoints hCP

end RSLinxHook

namespace RSLinxHook

/-- A cleanup scenario with a faulting stop call and a faulting
unadvise call among the live handles. -/
def cleanupDemoState : CleanupState :=
  { enumerators :=
      [{ enumId := 1, hasEnumInterface := true, hasSink := true,
         stopBehavior := CallBehavior.faults },
       { enumId := 2, hasEnumInterface := true, hasSink := true,
         stopBehavior := CallBehavior.returns 0 }],
    connectionPoints :=
      [{ cpId := 10, hasCP := true, unadviseBehavior := CallBehavior.faults },
       { cpId := 11, hasCP := true, unadviseBehavior := CallBehavior.returns 0 }],
    capturedBuses := [100] }

/-- Witness for C4 at a concrete registry state in which one stop call
and one unadvise call fault. -/
theorem C4_cleanup_best_effort_witness :
    (DoCleanupOnMainSTA cleanupDemoState).final.enumerators = [] :=
  (C4_cleanup_best_effort cleanupDemoState (by decide) (by decide)).2.2.1

/-! ## C6 helpers -/

lemma monitorBusTriggers_done (l : List TopologyCounts) :
    monitorBusTriggers true l = List.replicate l.length false := by
  induction l with
  | nil => rfl
  | cons c rest ih => simp [monitorBusTriggers, ih, List.replicate_succ]

lemma replicate_false_getD (n i : Nat) :
    (List.replicate n false).getD i false = false := by
  induction n generalizing i with
  | zero => simp
  | succ m ih =>
    cases i with
    | zero => simp [List.replicate_succ]
    | succ k => simp [List.replicate_succ, ih k]

lemma monitorBusTriggers_sound (l : List TopologyCounts) :
    ∀ (d : Bool) (i : Nat), (monitorBusTriggers d l).getD i false = true →
      0 < (l.getD i ⟨0, 0⟩).identifiedDevices := by
  induction l with
  | nil => intro d i h; simp [monitorBusTriggers] at h
  | cons c rest ih =>
    intro d i h
    rw [monitorBusTriggers] at h
    by_cases hc : d = false ∧ 0 < c.identifiedDevices
    · rw [if_pos hc] at h
      cases i with
      | zero => simpa using hc.2
      | succ n => simpa using ih true n (by simpa using h)
    · rw [if_neg hc] at h
      cases i with
      | zero => simp at h
      | succ n => simpa using ih d n (by simpa using h)

lemma monitorBusTriggers_first (l : List TopologyCounts) :
    ∀ (i j : Nat), j < i → (monitorBusTriggers false l).getD i false = true →
      (l.getD j ⟨0, 0⟩).identifiedDevices = 0 := by
  induction l with
  | nil => intro i j hj h; simp [monitorBusTriggers] at h
  | cons c rest ih =>
    intro i j hj h
    rw [monitorBusTriggers] at h
    by_cases hc : 0 < c.identifiedDevices
    · rw [if_pos ⟨rfl, hc⟩] at h
      cases i with
      | zero => omega
      | succ n =>
        rw [List.getD_cons_succ, monitorBusTriggers_done,
          replicate_false_getD] at h
        exact absurd h (by simp)
    · rw [if_neg (by simp [hc])] at h
      cases i with
      | zero => omega
      | succ n =>
        cases j with
        | zero => simpa using Nat.eq_zero_of_not_pos hc
        | succ m =>
          rw [List.getD_cons_succ]
          exact ih n m (by omega) (by simpa using h)

lemma count_true_replicate_false (n : Nat) :
    (List.replicate n false).count true = 0 := by
  induction n with
  | zero => rfl
  | succ m ih => simp [List.replicate_succ, List.count_cons, ih]

lemma monitorBusTriggers_once (l : List TopologyCounts) :
    (monitorBusTriggers false l).count true ≤ 1 := by
  induction l with
  | nil => simp [monitorBusTriggers]
  | cons c rest ih =>
    rw [monitorBusTriggers]
    by_cases hc : 0 < c.identifiedDevices
    · rw [if_pos ⟨rfl, hc⟩, monitorBusTriggers_done]
      simp [List.count_cons, count_true_replicate_false]
    · rw [if_neg (by simp [hc])]
      simpa [List.count_cons] using ih

/-! ## C6 -/

/-- C6: in one-shot mode the bus-browse block is skipped (recording the
skip and proceeding straight to cleanup) whenever the fresh pre-phase
snapshot shows zero identified devices, and bus browse is only ever
entered with a positive identified count; in monitor mode the bus
browse is triggered at most once, exactly at the first snapshot whose
identified count is positive. -/
theorem C6_phase_gating :
    (∀ (pre : TopologyCounts) (busHr bpHr : Nat), pre.identifiedDevices = 0 →
        oneShotPhase4 pre busHr bpHr
          = [OneShotAction.phase4Skipped, OneShotAction.cleanup]) ∧
    (∀ (pre : TopologyCounts) (busHr bpHr : Nat),
        OneShotAction.busBrowse ∈ oneShotPhase4 pre busHr bpHr →
          0 < pre.identifiedDevices) ∧
    (∀ (snaps : List TopologyCounts) (i : Nat),
        (monitorBusTriggers false snaps).getD i false = true →
          0 < (snaps.getD i ⟨0, 0⟩).identifiedDevices ∧
          ∀ j, j < i → (snaps.getD j ⟨0, 0⟩).identifiedDevices = 0) ∧
    (∀ snaps : List TopologyCounts,
        (monitorBusTriggers false snaps).count true ≤ 1) := by
  refine ⟨?_, ?_, ?_, ?_⟩
  · intro pre busHr bpHr h
    simp [oneShotPhase4, h]
  · intro pre busHr bpHr hmem
    by_contra hz
    rw [oneShotPhase4, if_neg hz] at hmem
    simp at hmem
  · intro snaps i h
    exact ⟨monitorBusTriggers_sound snaps false i h,
      fun j hj => monitorBusTriggers_first snaps i j hj h⟩
  · exact monitorBusTriggers_once

/-- Witness for C6 at a concrete zero-identified snapshot. -/
theorem C6_phase_gating_witness :
    oneShotPhase4 { totalDevices := 3, identifiedDevices := 0 } 0 0
      = [OneShotAction.phase4Skipped, OneShotAction.cleanup] :=
  C6_phase_gating.1 { totalDevices := 3, identifiedDevices := 0 } 0 0 rfl

end RSLinxHook

namespace RSLinxHook

/-! ## C8 helpers -/

/-- Total number of classified registration attempts. -/
def regTotal (c : RegCounts) : Nat :=
  c.addedCount + c.existingCount + c.failedCount

lemma classifyConnectResult_total (c : RegCounts) (hr : Nat) :
    regTotal (classifyConnectResult c hr) = regTotal c + 1 := by
  rw [classifyConnectResult]
  split
  · simp [regTotal]; omega
  · split <;> simp [regTotal] <;> omega

lemma registerIPs_total (host : List String → String → Nat × List String)
    (ips : List String) :
    ∀ (registry : List String) (counts : RegCounts),
      regTotal (registerIPs host registry ips counts).2
        = regTotal counts + ips.length := by
  induction ips with
  | nil => intro registry counts; rfl
  | cons ip rest ih =>
    intro registry counts
    rw [registerIPs, ih, classifyConnectResult_total]
    simp [Nat.add_comm, Nat.add_assoc, Nat.add_left_comm]

lemma registerIPs_nodup (ips : List String) :
    ∀ (registry : List String) (counts : RegCounts), registry.Nodup →
      (registerIPs hostConnectNewDevice registry ips counts).1.Nodup := by
  induction ips with
  | nil => intro registry counts h; exact h
  | cons ip rest ih =>
    intro registry counts h
    rw [registerIPs]
    by_cases hm : ip ∈ registry
    · exact ih _ _ (by simpa [hostConnectNewDevice, hm] using h)
    · apply ih
      simp [hostConnectNewDevice, hm, List.nodup_append, h]

/-! ## C8 -/

/-- C8: the host's "already exists" response is treated as
success-with-no-op: registering the same address twice yields one
registry entry, counts the second attempt as existing rather than
failed, keeps the registry duplicate-free, and — for any host response
whatsoever — every configured address is attempted and classified, so
registration continues past failures. -/
theorem C8_idempotent_registration (registry : List String) (addr : String)
    (counts : RegCounts) (hnew : addr ∉ registry) :
    (registerIPs hostConnectNewDevice registry [addr, addr] counts).1
      = registry ++ [addr] ∧
    (registerIPs hostConnectNewDevice registry [addr, addr] counts).2
      = { addedCount := counts.addedCount + 1,
          existingCount := counts.existingCount + 1,
          failedCount := counts.failedCount } ∧
    (∀ (host : List String → String → Nat × List String)
        (ips reg0 : List String) (c0 : RegCounts),
        regTotal (registerIPs host reg0 ips c0).2 = regTotal c0 + ips.length) ∧
    (∀ (ips reg0 : List String) (c0 : RegCounts), reg0.Nodup →
        (registerIPs hostConnectNewDevice reg0 ips c0).1.Nodup) := by
  have hstep : registerIPs hostConnectNewDevice registry [addr, addr] counts
      = (registry ++ [addr],
          { addedCount := counts.addedCount + 1,
            existingCount := counts.existingCount + 1,
            failedCount := counts.failedCount }) := by
    rw [registerIPs, registerIPs, registerIPs]
    simp [hostConnectNewDevice, hnew, classifyConnectResult,
      SUCCEEDED, S_OK, DISP_E_EXCEPTION]
  refine ⟨by rw [hstep], by rw [hstep], registerIPs_total, registerIPs_nodup⟩

/-- Witness for C8: registering `10.0.0.5` twice into an empty host
registry. -/
theorem C8_idempotent_registration_witness :
    (registerIPs hostConnectNewDevice [] ["10.0.0.5", "10.0.0.5"]
        { addedCount := 0, existingCount := 0, failedCount := 0 }).1
      = [] ++ ["10.0.0.5"] :=
  (C8_idempotent_registration [] "10.0.0.5"
    { addedCount := 0, existingCount := 0, failedCount := 0 }
    (by simp)).1

end RSLinxHook

namespace RSLinxHook

/-! ## C2 helpers -/

lemma isTargetIdentified_singleton (buf : List Char) (ips : List (List Char)) :
    IsTargetIdentifiedInXML buf ips = true ↔
      ∃ ip ∈ ips, IsTargetIdentifiedInXML buf [ip] = true := by
  simp [IsTargetIdentifiedInXML, List.any_eq_true]

lemma phase3Loop_spec (env : Phase3Env) :
    ∀ (fuel e : Nat), e % 100 = 0 →
      ((phase3Loop env fuel e).why = Phase3Exit.cycled →
          3000 ≤ (phase3Loop env fuel e).elapsed ∧
          env.allCycled (phase3Loop env fuel e).elapsed = true) ∧
      ((phase3Loop env fuel e).why = Phase3Exit.target →
          3000 ≤ (phase3Loop env fuel e).elapsed ∧
          (phase3Loop env fuel e).elapsed % 2000 = 0 ∧
          env.allIPs ≠ [] ∧
          IsTargetIdentifiedInXML (env.snapshot (phase3Loop env fuel e).elapsed)
            env.allIPs = true) ∧
      (phase3Loop env fuel e).elapsed ≤ max e 30000 := by
  intro fuel
  induction fuel with
  | zero =>
    intro e he
    exact ⟨fun h => Phase3Exit.noConfusion h, fun h => Phase3Exit.noConfusion h,
      le_max_left e 30000⟩
  | succ n ih =>
    intro e he
    rw [phase3Loop]
    split
    · exact ⟨fun h => Phase3Exit.noConfusion h, fun h => Phase3Exit.noConfusion h,
        le_max_left e 30000⟩
    · split
      · exact ⟨fun h => Phase3Exit.noConfusion h, fun h => Phase3Exit.noConfusion h,
          le_max_left e 30000⟩
      · split
        · rename_i hcy
          exact ⟨fun _ => hcy, fun h => Phase3Exit.noConfusion h,
            le_max_left e 30000⟩
        · split
          · rename_i htg
            refine ⟨fun h => Phase3Exit.noConfusion h, fun _ => ?_,
              le_max_left e 30000⟩
            obtain ⟨h1, h2, h3, h4, h5, h6⟩ := htg
            exact ⟨h4, show e % 2000 = 0 by omega, h5, h6⟩
          · rename_i hns hnt hnc hng
            have he100 : (e + 100) % 100 = 0 := by omega
            have hlt : e < 30000 := by omega
            obtain ⟨i1, i2, i3⟩ := ih (e + 100) he100
            refine ⟨i1, i2, ?_⟩
            have hmax : max (e + 100) 30000 = 30000 :=
              Nat.max_eq_right (by omega)
            rw [hmax] at i3
            exact le_trans i3 (le_max_right e 30000)

/-! ## C2 -/

/-- C2 (amended): the phase-3 loop polls on a 100 ms tick within a 30 s
budget; an early exit via enumerator completion happens only at or
after the 3 s minimum with the since-baseline cycle check true, and the
target-identification exit happens only at or after the 3 s minimum, on
a 2 s poll tick, with a non-empty target list and with AT LEAST ONE
requested target address appearing in the snapshot under a
non-"unrecognized" classification (not necessarily all of them). -/
theorem C2_phase3_polling (env : Phase3Env) :
    ((Phase3Run env).why = Phase3Exit.cycled →
        3000 ≤ (Phase3Run env).elapsed ∧
        env.allCycled (Phase3Run env).elapsed = true) ∧
    ((Phase3Run env).why = Phase3Exit.target →
        3000 ≤ (Phase3Run env).elapsed ∧
        (Phase3Run env).elapsed % 2000 = 0 ∧
        env.allIPs ≠ [] ∧
        ∃ ip ∈ env.allIPs,
          IsTargetIdentifiedInXML (env.snapshot (Phase3Run env).elapsed) [ip]
            = true) ∧
    (Phase3Run env).elapsed ≤ 30000 := by
  have h := phase3Loop_spec env 301 0 rfl
  refine ⟨h.1, ?_, by simpa using h.2.2⟩
  intro ht
  obtain ⟨h1, h2, h3, h4⟩ := h.2.1 ht
  exact ⟨h1, h2, h3, (isTargetIdentified_singleton _ _).1 h4⟩

/-- A phase-3 environment with two configured targets of which only
`10.0.0.5` ever appears in the (constant) snapshot. -/
def phase3DemoEnv : Phase3Env :=
  { shouldStop := fun _ => false, allCycled := fun _ => false,
    saveOk := fun _ => true, snapshot := fun _ => snapshotScenarioA,
    allIPs := ["10.0.0.5".toList, "10.0.0.6".toList] }

set_option maxRecDepth 1000000 in
/-- Counterexample to C2 as stated: with targets `10.0.0.5` and
`10.0.0.6` configured, the loop takes the target-identification early
exit (at 4000 ms) although `10.0.0.6` never appears in the snapshot at
all — the exit does not require every requested target address to be
identified. -/
theorem C2_counterexample :
    (Phase3Run phase3DemoEnv).why = Phase3Exit.target ∧
    (Phase3Run phase3DemoEnv).elapsed = 4000 ∧
    strstrAt snapshotScenarioA (valuePattern ("10.0.0.6".toList)) 0 = none ∧
    IsTargetIdentifiedInXML snapshotScenarioA ["10.0.0.6".toList] = false := by
  exact ⟨by decide, by decide, by decide, by decide⟩

/-- Witness for C2 at the concrete demo environment. -/
theorem C2_phase3_polling_witness :
    (Phase3Run phase3DemoEnv).elapsed ≤ 30000 :=
  (C2_phase3_polling phase3DemoEnv).2.2

end RSLinxHook

namespace RSLinxHook

/-! ## C9 helpers -/

lemma takeToNul_eq_self (c : List Char) (h : nulChar ∉ c) : takeToNul c = c := by
  induction c with
  | nil => rfl
  | cons x rest ih =>
    simp only [List.mem_cons, not_or] at h
    have hx : x ≠ nulChar := fun he => h.1 he.symm
    have ht : takeToNul rest = rest := ih h.2
    rw [takeToNul] at ht
    rw [takeToNul, List.takeWhile_cons, if_pos (by simp [hx]), ht]

lemma linesOf_no_newline (s : List Char) (h : '\n' ∉ s) : linesOf s = ([], s) := by
  induction s with
  | nil => rfl
  | cons c rest ih =>
    simp only [List.mem_cons, not_or] at h
    rw [linesOf, if_neg (fun hc => h.1 hc.symm), ih h.2, consLine]

lemma linesOf_rem_no_newline (s : List Char) : '\n' ∉ (linesOf s).2 := by
  induction s with
  | nil => simp [linesOf]
  | cons c rest ih =>
    rw [linesOf]
    by_cases hc : c = '\n'
    · rw [if_pos hc]; exact ih
    · rw [if_neg hc]
      cases hls : linesOf rest with
      | mk ls rem =>
        rw [hls] at ih
        cases ls with
        | nil =>
          rw [consLine]
          simp only [List.mem_cons, not_or]
          exact ⟨fun hcc => hc hcc.symm, ih⟩
        | cons l ls2 => rw [consLine]; exact ih

lemma linesOf_append (a b : List Char) :
    linesOf (a ++ b)
      = ((linesOf a).1 ++ (linesOf ((linesOf a).2 ++ b)).1,
         (linesOf ((linesOf a).2 ++ b)).2) := by
  induction a with
  | nil => simp [linesOf]
  | cons c t ih =>
    by_cases hc : c = '\n'
    · subst hc
      simp only [List.cons_append]
      rw [linesOf, if_pos rfl, linesOf, if_pos rfl, ih]
      rfl
    · simp only [List.cons_append]
      rw [linesOf, if_neg hc, ih, linesOf, if_neg hc]
      cases hlt : linesOf t with
      | mk ls rem =>
        cases ls with
        | nil =>
          simp only [consLine, List.nil_append, List.cons_append]
          rw [linesOf, if_neg hc]
          cases hY : linesOf (rem ++ b) with
          | mk ys yrem => cases ys <;> simp [consLine]
        | cons l ls2 =>
          simp [consLine, List.cons_append]

lemma runLines_append (l1 l2 : List (List Char)) :
    ∀ cfg : HookConfig,
      runLines cfg (l1 ++ l2)
        = match runLines cfg l1 with
          | (some ok, cfg1) => (some ok, cfg1)
          | (none, cfg1) => runLines cfg1 l2 := by
  induction l1 with
  | nil => intro cfg; rfl
  | cons l rest ih =>
    intro cfg
    rw [List.cons_append, runLines, runLines]
    by_cases hend : trimCR l = "C|END".toList
    · rw [if_pos hend, if_pos hend]
    · rw [if_neg hend, if_neg hend]
      exact ih _

lemma readConfigGo_join (chunks : List (List Char)) :
    ∀ (cfg : HookConfig) (acc : List Char),
      (∀ c ∈ chunks, c ≠ []) → (∀ c ∈ chunks, nulChar ∉ c) → '\n' ∉ acc →
      readConfigGo cfg acc chunks
        = match runLines cfg (linesOf (acc ++ chunks.flatten)).1 with
          | (some ok, cfg1) => (ok, cfg1)
          | (none, cfg1) => (false, cfg1) := by
  induction chunks with
  | nil =>
    intro cfg acc h1 h2 hacc
    rw [readConfigGo, List.flatten_nil, List.append_nil,
      linesOf_no_newline acc hacc, runLines]
  | cons chunk rest ih =>
    intro cfg acc h1 h2 hacc
    have hcne : chunk ≠ [] := h1 chunk (List.mem_cons_self chunk rest)
    have hcnul : nulChar ∉ chunk := h2 chunk (List.mem_cons_self chunk rest)
    rw [readConfigGo, if_neg hcne, takeToNul_eq_self chunk hcnul,
      List.flatten_cons, ← List.append_assoc,
      linesOf_append (acc ++ chunk) rest.flatten, runLines_append]
    cases hr : runLines cfg (linesOf (acc ++ chunk)).1 with
    | mk o cfg1 =>
      cases o with
      | some ok => rfl
      | none =>
        exact ih cfg1 (linesOf (acc ++ chunk)).2
          (fun c hc => h1 c (List.mem_cons_of_mem chunk hc))
          (fun c hc => h2 c (List.mem_cons_of_mem chunk hc))
          (linesOf_rem_no_newline (acc ++ chunk))

end RSLinxHook

namespace RSLinxHook

/-- A chunked config stream containing an unrecognized `C|FUTUREKEY`
line split across the two chunks. -/
def configDemoChunks : List (List Char) :=
  ["C|MODE=inject\nC|FUT".toList,
   "UREKEY=x\nC|DRIVER=AB_ETH-1\nC|IP=10.0.0.5\nC|END\n".toList]

def configDemoExpected : HookConfig :=
  { drivers := [{ name := "AB_ETH-1".toList,
                  ipAddresses := ["10.0.0.5".toList], newDriver := false }],
    mode := .inject, logDir := "C:\\temp".toList,
    debugXml := false, probeDispids := false }

set_option maxRecDepth 1000000 in
/-- C9: config parsing is line-buffered (the chunked pipe read equals
processing the complete lines of the concatenated byte stream, for any
chunking into non-empty NUL-free reads); a `C|` line with an
unrecognized key never changes the configuration; whenever the `C|END`
terminator is processed the returned result is success iff at least one
driver target was configured; and a concrete stream with an unknown key
split across chunk boundaries still parses all recognized keys. -/
theorem C9_config_parsing :
    (∀ chunks : List (List Char),
        (∀ c ∈ chunks, c ≠ []) → (∀ c ∈ chunks, nulChar ∉ c) →
        ReadConfigFromPipe chunks
          = match runLines defaultHookConfig (linesOf chunks.flatten).1 with
            | (some ok, cfg1) => (ok, cfg1)
            | (none, cfg1) => (false, cfg1)) ∧
    (∀ (cfg : HookConfig) (payload : List Char),
        payload ≠ "MODE=inject".toList →
        payload ≠ "MODE=monitor".toList →
        prefixMatch payload "LOGDIR=".toList = false →
        payload ≠ "DEBUGXML=1".toList →
        payload ≠ "PROBE=1".toList →
        prefixMatch payload "DRIVER=".toList = false →
        payload ≠ "NEWDRIVER=1".toList →
        prefixMatch payload "IP=".toList = false →
        applyConfigLine cfg ('C' :: '|' :: payload) = cfg) ∧
    (∀ (cfg cfg1 : HookConfig) (ls : List (List Char)) (ok : Bool),
        runLines cfg ls = (some ok, cfg1) → (ok = true ↔ cfg1.drivers ≠ [])) ∧
    ReadConfigFromPipe configDemoChunks = (true, configDemoExpected) := by
  refine ⟨?_, ?_, ?_, by decide⟩
  · intro chunks h1 h2
    exact readConfigGo_join chunks defaultHookConfig [] h1 h2 (by simp)
  · intro cfg payload h1 h2 h3 h4 h5 h6 h7 h8
    rw [applyConfigLine]
    rw [if_pos (by simp [prefixMatch])]
    simp only [List.drop_succ_cons, List.drop_zero]
    rw [if_neg h1, if_neg h2,
      if_neg (fun hcond => Bool.false_ne_true (h3 ▸ hcond)),
      if_neg h4, if_neg h5,
      if_neg (fun hcond => Bool.false_ne_true (h6 ▸ hcond)),
      if_neg (fun hcond => h7 hcond.1),
      if_neg (fun hcond => Bool.false_ne_true (h8 ▸ hcond.1))]
  · intro cfg cfg1 ls
    induction ls generalizing cfg with
    | nil => intro ok h; exact absurd h (by simp [runLines])
    | cons l rest ih =>
      intro ok h
      rw [runLines] at h
      by_cases hend : trimCR l = "C|END".toList
      · rw [if_pos hend, Prod.mk.injEq] at h
        obtain ⟨ho, hc⟩ := h
        subst hc
        rw [← Option.some_inj.1 ho]
        simp [List.isEmpty_iff]
      · rw [if_neg hend] at h
        exact ih _ _ h

/-- Witness for C9 at the concrete chunked stream. -/
theorem C9_config_parsing_witness :
    ReadConfigFromPipe configDemoChunks
      = match runLines defaultHookConfig (linesOf configDemoChunks.flatten).1 with
        | (some ok, cfg1) => (ok, cfg1)
        | (none, cfg1) => (false, cfg1) :=
  C9_config_parsing.1 configDemoChunks (by decide) (by decide)

end RSLinxHook
